import Mathlib

/-!
Verification of the ScoreGenie repository (src/labeling_to_numbers.py and
src/midi_to_mp3.py) against its natural-language specification.

Python strings are embedded as `List Char` (the scripts only use ASCII
pitch names and octave digits).  Python's `int(note[-1])` succeeds on a
single character exactly when that character is a decimal digit, which we
model with `Char.isDigit`; `note_map[note_name]` raising `KeyError` and
`note[-1]` raising `IndexError` on the empty string are modelled by
`Option`, with `none` standing for "the Python call raises".
-/

set_option maxRecDepth 100000

namespace ScoreGenie

/-- The fixed 12-entry note table of `midi_note_to_key_number`
(src/labeling_to_numbers.py lines 35-38): semitone offset of each
chromatic note name, C = 0 through B = 11. -/
def note_map : List (List Char × Int) :=
  [(['C'], 0), (['C', '#'], 1), (['D'], 2), (['D', '#'], 3), (['E'], 4),
   (['F'], 5), (['F', '#'], 6), (['G'], 7), (['G', '#'], 8), (['A'], 9),
   (['A', '#'], 10), (['B'], 11)]

/-- Model of Python `int(c)` on the single character `c = note[-1]`:
returns the digit value when `c` is a decimal digit, otherwise the Python
call raises `ValueError`, modelled as `none`. -/
def parseOctave (c : Char) : Option Int :=
  if c.isDigit then some ((c.toNat : Int) - 48) else none

/-- `midi_note_to_key_number` from src/labeling_to_numbers.py lines 25-46.
Splits the note string into `note_name = note[:-1]` (`dropLast`) and
`octave = int(note[-1])` (the last character parsed as a digit), looks the
name up in `note_map`, computes the standard MIDI number
`(octave + 1) * 12 + offset` and subtracts 21.  `none` models the Python
exceptions (`IndexError` on the empty string, `ValueError` on a non-digit
last character, `KeyError` on an unrecognized note name). -/
def midi_note_to_key_number (note : List Char) : Option Int :=
  match note.getLast? with
  | none => none
  | some lastChar =>
    let note_name := note.dropLast
    match parseOctave lastChar, note_map.lookup note_name with
    | some octave, some offset =>
      let midi_number := (octave + 1) * 12 + offset
      let key_number := midi_number - 21
      some key_number
    | _, _ => none

/-- The chromatic note-name list of `generate_all_piano_keys`
(src/labeling_to_numbers.py line 57), in the source's order. -/
def note_names : List (List Char) :=
  [['C'], ['C', '#'], ['D'], ['D', '#'], ['E'], ['F'], ['F', '#'],
   ['G'], ['G', '#'], ['A'], ['A', '#'], ['B']]

/-- One loop-body step of `generate_all_piano_keys` (lines 61-68): compute
the label of `note`; if the computation raises (`none`) the `except:
continue` keeps the accumulator unchanged; if the label is inside [0, 87]
append the note and the label to the two result lists, otherwise skip. -/
def try_add_key (acc : List (List Char) × List Int) (note : List Char) :
    List (List Char) × List Int :=
  match midi_note_to_key_number note with
  | some label =>
    if 0 ≤ label ∧ label ≤ 87 then (acc.1 ++ [note], acc.2 ++ [label]) else acc
  | none => acc

/-- `generate_all_piano_keys` from src/labeling_to_numbers.py lines 48-70:
iterate octaves 0..8 (`range(0, 9)`) and the 12 note names in order,
building the parallel `notes` and `labels` lists.  The note string
`f"{note_name}{octave}"` is `name ++ [Nat.digitChar octave]` since the
octave is a single decimal digit. -/
def generate_all_piano_keys : List (List Char) × List Int :=
  (List.range 9).foldl
    (fun acc octave =>
      note_names.foldl
        (fun acc2 name => try_add_key acc2 (name ++ [Nat.digitChar octave]))
        acc)
    ([], [])

/-- `note_to_label = dict(zip(notes, labels))` from
src/labeling_to_numbers.py line 183, as an association list (the keys are
distinct, so first-match lookup agrees with the Python dict). -/
def note_to_label : List (List Char × Int) :=
  List.zip generate_all_piano_keys.1 generate_all_piano_keys.2

/-- `label_to_note = dict(zip(labels, notes))` from
src/labeling_to_numbers.py line 184, as an association list. -/
def label_to_note : List (Int × List Char) :=
  List.zip generate_all_piano_keys.2 generate_all_piano_keys.1

/-- The black-key table of `visualize_piano_mapping`
(src/labeling_to_numbers.py line 95). -/
def black_keys : List (List Char) :=
  [['C', '#'], ['D', '#'], ['F', '#'], ['G', '#'], ['A', '#']]

/-- The classification of line 96: a key is black iff its note name
(`note[:-1]`) is in `black_keys`. -/
def key_type_black (note : List Char) : Bool :=
  black_keys.contains note.dropLast

/-- Whether the note token `note[:-1]` is one of the 12 recognized names
(the failure condition of the `note_map[note_name]` lookup). -/
def recognized_token (s : List Char) : Bool :=
  (note_map.lookup s).isSome

/-- Whether the octave segment (the last character of the pitch string)
exists and is a decimal digit (the success condition of
`int(note[-1])`). -/
def octave_digit (note : List Char) : Bool :=
  match note.getLast? with
  | some c => c.isDigit
  | none => false

/-- Rank of a pitch string in the generation order: `12 * octave` plus the
note-token index.  Strict monotonicity of this rank along the output
sequence states "ascending by octave, then by note-token index". -/
def note_rank (note : List Char) : Int :=
  (match note.getLast? with
   | some c => ((c.toNat : Int) - 48) * 12
   | none => 0) +
  (match note_map.lookup note.dropLast with
   | some k => k
   | none => 0)

/-- The two external stages run by `midi_to_mp3` (src/midi_to_mp3.py):
the synthesizer (step 2) and the encoder (step 3). -/
inductive Stage : Type
  | fluidsynth : Stage
  | ffmpeg : Stage
deriving DecidableEq

/-- Errors raised by `midi_to_mp3`: `fileNotFound` models Python
`FileNotFoundError(message)` (raised for a missing input file and for a
stage that completed without producing its expected output), and
`calledProcessError` models `subprocess.CalledProcessError` re-raised
after printing the captured stderr of the failed stage. -/
inductive ConvError : Type
  | fileNotFound (message : List Char) : ConvError
  | calledProcessError (stage : Stage) (stderrText : List Char) : ConvError
deriving DecidableEq

/-- The outside world `midi_to_mp3` interacts with, abstracted to what
each of its checks and subprocess calls observes: whether
`os.path.isfile` holds for each checked path at the moment of its check,
whether each subprocess exits with status 0, the stderr each subprocess
produced, and whether `os.remove(wav_path)` succeeds or raises. -/
structure World : Type where
  midiIsFile : Bool
  soundfontIsFile : Bool
  fluidsynthExitZero : Bool
  fluidsynthStderr : List Char
  wavIsFileAfterSynth : Bool
  ffmpegExitZero : Bool
  ffmpegStderr : List Char
  mp3IsFileAfterEncode : Bool
  removeWavSucceeds : Bool
deriving DecidableEq

/-- Model of the `os.remove(wav_path)` call in step 4 of `midi_to_mp3`
(src/midi_to_mp3.py line 86): succeeds or raises some exception. -/
def os_remove_wav (w : World) : Except ConvError Unit :=
  if w.removeWavSucceeds then Except.ok ()
  else Except.error (ConvError.fileNotFound ('w' :: 'a' :: 'v' :: []))

/-- `midi_to_mp3` from src/midi_to_mp3.py lines 5-91, with the file
system and the two subprocesses abstracted into a `World`.  The control
flow mirrors the source exactly: check the MIDI path, check the
soundfont path, run the synthesizer and re-raise on non-zero exit, check
that the WAV file appeared, run the encoder and re-raise on non-zero
exit, check that the MP3 file appeared, then (when `keep_wav` is false)
attempt `os.remove(wav_path)` inside `try/except` — both the ok and the
error branch of that attempt fall through to `return output_mp3_path`.
Error messages are abbreviated transliterations of the source's Korean
strings; the path arithmetic of `os.path` is not modelled because no
claim depends on it. -/
def midi_to_mp3 (midi_path soundfont_path output_mp3_path : List Char)
    (keep_wav : Bool) (w : World) : Except ConvError (List Char) :=
  if w.midiIsFile = false then
    Except.error (ConvError.fileNotFound
      (('M' :: 'I' :: 'D' :: 'I' :: ' ' :: []) ++ midi_path))
  else if w.soundfontIsFile = false then
    Except.error (ConvError.fileNotFound
      (('S' :: 'F' :: ' ' :: []) ++ soundfont_path))
  else if w.fluidsynthExitZero = false then
    Except.error (ConvError.calledProcessError Stage.fluidsynth
      w.fluidsynthStderr)
  else if w.wavIsFileAfterSynth = false then
    Except.error (ConvError.fileNotFound ('W' :: 'A' :: 'V' :: []))
  else if w.ffmpegExitZero = false then
    Except.error (ConvError.calledProcessError Stage.ffmpeg w.ffmpegStderr)
  else if w.mp3IsFileAfterEncode = false then
    Except.error (ConvError.fileNotFound ('M' :: 'P' :: '3' :: []))
  else if keep_wav then
    Except.ok output_mp3_path
  else
    match os_remove_wav w with
    | Except.ok _ => Except.ok output_mp3_path
    | Except.error _ => Except.ok output_mp3_path

/-- Boolean check that a list of integers is strictly ascending (each
element less than its successor). -/
def strictly_ascending : List Int → Bool
  | a :: b :: rest => (decide (a < b)) && strictly_ascending (b :: rest)
  | _ => true

/-- Helper: the label list produced by `generate_all_piano_keys` is
literally `[0, 1, ..., 87]`. -/
lemma labels_eq_range :
    generate_all_piano_keys.2 = (List.range 88).map (Nat.cast : Nat → Int) := by
  decide

/-- Helper: the Boolean ascending check agrees with `List.Chain'` of
strict order. -/
lemma strictly_ascending_iff :
    ∀ l : List Int, strictly_ascending l = true ↔ List.Chain' (· < ·) l
  | [] => by simp [strictly_ascending]
  | [a] => by simp [strictly_ascending]
  | a :: b :: rest => by
    simp [strictly_ascending, strictly_ascending_iff (b :: rest),
      List.chain'_cons]

/-- C1: `generate_all_piano_keys` returns exactly 88 (note, label) pairs,
and the set of returned labels is exactly {0, ..., 87}: no duplicate
labels and no gaps. -/
theorem C1_generate_88_complete :
    generate_all_piano_keys.1.length = 88 ∧
    generate_all_piano_keys.2.length = 88 ∧
    generate_all_piano_keys.2.Nodup ∧
    (∀ n : Int, n ∈ generate_all_piano_keys.2 ↔ 0 ≤ n ∧ n ≤ 87) := by
  refine ⟨by decide, by decide, by decide, ?_⟩
  intro n
  rw [labels_eq_range]
  simp only [List.mem_map, List.mem_range]
  constructor
  · rintro ⟨a, ha, rfl⟩
    omega
  · rintro ⟨h0, h87⟩
    exact ⟨n.toNat, by omega, by omega⟩

/-- C2: for every recognized note token (semitone offset C=0 … B=11) and
every octave digit 0-8, `midi_note_to_key_number` returns
`(octave + 1) * 12 + offset - 21`; in particular A0 maps to 0, C4 to 39,
A4 to 48 and C8 to 87. -/
theorem C2_formula_and_reference_points :
    (∀ p ∈ note_map, ∀ octave ∈ List.range 9,
      midi_note_to_key_number (p.1 ++ [Nat.digitChar octave]) =
        some (((octave : Int) + 1) * 12 + p.2 - 21)) ∧
    midi_note_to_key_number ['A', '0'] = some 0 ∧
    midi_note_to_key_number ['C', '4'] = some 39 ∧
    midi_note_to_key_number ['A', '4'] = some 48 ∧
    midi_note_to_key_number ['C', '8'] = some 87 := by
  decide

/-- C3: the generated mapping is a bijection between the 88 retained
pitch names and the labels 0..87: each label in 0..87 occurs exactly once
in the label list, and sending a label to its note (`label_to_note`) and
the note back to its label (`note_to_label`) is the identity. -/
theorem C3_bijection :
    ∀ n ∈ List.range 88,
      generate_all_piano_keys.2.count ((n : Int)) = 1 ∧
      (label_to_note.lookup ((n : Int))).bind note_to_label.lookup =
        some ((n : Int)) := by
  decide

/-- Witness for C3 at the concrete label 39 (the key C4). -/
theorem C3_bijection_witness :
    generate_all_piano_keys.2.count ((39 : Nat) : Int) = 1 ∧
    (label_to_note.lookup ((39 : Nat) : Int)).bind note_to_label.lookup =
      some ((39 : Nat) : Int) :=
  C3_bijection 39 (by decide)

/-- C4: `midi_note_to_key_number` fails exactly when the note token
(`note[:-1]`) is not one of the 12 recognized names, or the octave
segment (the final character) is missing or not a decimal digit; in
particular it fails on "H4" and on "C". -/
theorem C4_invalid_pitch_name :
    (∀ note : List Char,
      midi_note_to_key_number note = none ↔
        (recognized_token note.dropLast = false ∨ octave_digit note = false)) ∧
    midi_note_to_key_number ['H', '4'] = none ∧
    midi_note_to_key_number ['C'] = none := by
  refine ⟨?_, by decide, by decide⟩
  intro note
  rcases List.eq_nil_or_concat' note with rfl | ⟨ys, c, rfl⟩
  · decide
  · simp only [midi_note_to_key_number, octave_digit, recognized_token,
      List.getLast?_concat, List.dropLast_concat, parseOctave]
    cases hd : c.isDigit <;> cases hl : note_map.lookup ys <;> simp [hd, hl]

/-- C5: a syntactically valid pitch whose computed label is outside
[0, 87] is excluded from the generated mapping rather than raised as an
error: the single-note conversion still succeeds on it (generation never
fails there), and its pitch name does not appear in the output. -/
theorem C5_out_of_range_filtered :
    ∀ p ∈ note_map, ∀ octave ∈ List.range 9,
      (((octave : Int) + 1) * 12 + p.2 - 21 < 0 ∨
        87 < ((octave : Int) + 1) * 12 + p.2 - 21) →
      (midi_note_to_key_number (p.1 ++ [Nat.digitChar octave])).isSome = true ∧
      (p.1 ++ [Nat.digitChar octave]) ∉ generate_all_piano_keys.1 := by
  decide

/-- Witness for C5 at the concrete out-of-range pitch C0 (label -9). -/
theorem C5_out_of_range_filtered_witness :
    (midi_note_to_key_number ((['C'] : List Char) ++ [Nat.digitChar 0])).isSome
      = true ∧
    ((['C'] : List Char) ++ [Nat.digitChar 0]) ∉ generate_all_piano_keys.1 :=
  C5_out_of_range_filtered (['C'], 0) (by decide) 0 (by decide) (by decide)

/-- C6: the generated sequence is strictly ascending by octave then
note-token index (strict monotonicity of `note_rank`), and this coincides
with ascending label order: the label sequence is exactly 0, 1, ..., 87
in order. -/
theorem C6_ordering :
    List.Chain' (· < ·) (generate_all_piano_keys.1.map note_rank) ∧
    generate_all_piano_keys.2 = (List.range 88).map (Nat.cast : Nat → Int) := by
  exact ⟨(strictly_ascending_iff _).mp (by decide), labels_eq_range⟩

/-- C7: classifying each generated key as black when its note token is in
{C#, D#, F#, G#, A#} and white otherwise gives exactly 36 black keys and
52 white keys. -/
theorem C7_black_white_counts :
    (generate_all_piano_keys.1.filter key_type_black).length = 36 ∧
    (generate_all_piano_keys.1.filter (fun n => ! key_type_black n)).length
      = 52 := by
  decide

/-- C9: `midi_note_to_key_number` performs no range check of its own:
whenever the note token is recognized and the final character is a
decimal digit, it returns the arithmetic value `(octave + 1) * 12 +
offset - 21` without error, even outside [0, 87]; "C0" returns -9 and
"C9" returns 87 + 12. -/
theorem C9_no_range_check :
    (∀ ys : List Char, ∀ c : Char, ∀ off : Int, c.isDigit = true →
      note_map.lookup ys = some off →
      midi_note_to_key_number (ys ++ [c]) =
        some ((((c.toNat : Int) - 48) + 1) * 12 + off - 21)) ∧
    midi_note_to_key_number ['C', '0'] = some (-9) ∧
    midi_note_to_key_number ['C', '9'] = some (87 + 12) := by
  refine ⟨?_, by decide, by decide⟩
  intro ys c off hd hl
  simp [midi_note_to_key_number, List.getLast?_concat, List.dropLast_concat,
    parseOctave, hd, hl]

/-- C8: `midi_to_mp3` returns the output MP3 path exactly when every
check and both subprocess stages succeed, and each failure condition
(missing MIDI input, missing soundfont, non-zero synthesizer exit,
missing WAV after synthesis, non-zero encoder exit, missing MP3 after
encoding) raises its own descriptive error, with the first failing stage
aborting the pipeline: each error case below assumes only that the
earlier stages succeeded, and no stage runs twice (no retries, by the
straight-line structure of the function). -/
theorem C8_conversion_errors (mp sf op : List Char) (kw : Bool) (w : World) :
    (midi_to_mp3 mp sf op kw w = Except.ok op ↔
      w.midiIsFile = true ∧ w.soundfontIsFile = true ∧
      w.fluidsynthExitZero = true ∧ w.wavIsFileAfterSynth = true ∧
      w.ffmpegExitZero = true ∧ w.mp3IsFileAfterEncode = true) ∧
    (w.midiIsFile = false →
      midi_to_mp3 mp sf op kw w = Except.error (ConvError.fileNotFound
        (('M' :: 'I' :: 'D' :: 'I' :: ' ' :: []) ++ mp))) ∧
    (w.midiIsFile = true → w.soundfontIsFile = false →
      midi_to_mp3 mp sf op kw w = Except.error (ConvError.fileNotFound
        (('S' :: 'F' :: ' ' :: []) ++ sf))) ∧
    (w.midiIsFile = true → w.soundfontIsFile = true →
      w.fluidsynthExitZero = false →
      midi_to_mp3 mp sf op kw w = Except.error
        (ConvError.calledProcessError Stage.fluidsynth w.fluidsynthStderr)) ∧
    (w.midiIsFile = true → w.soundfontIsFile = true →
      w.fluidsynthExitZero = true → w.wavIsFileAfterSynth = false →
      midi_to_mp3 mp sf op kw w = Except.error
        (ConvError.fileNotFound ('W' :: 'A' :: 'V' :: []))) ∧
    (w.midiIsFile = true → w.soundfontIsFile = true →
      w.fluidsynthExitZero = true → w.wavIsFileAfterSynth = true →
      w.ffmpegExitZero = false →
      midi_to_mp3 mp sf op kw w = Except.error
        (ConvError.calledProcessError Stage.ffmpeg w.ffmpegStderr)) ∧
    (w.midiIsFile = true → w.soundfontIsFile = true →
      w.fluidsynthExitZero = true → w.wavIsFileAfterSynth = true →
      w.ffmpegExitZero = true → w.mp3IsFileAfterEncode = false →
      midi_to_mp3 mp sf op kw w = Except.error
        (ConvError.fileNotFound ('M' :: 'P' :: '3' :: []))) := by
  obtain ⟨m, s, fe, fs, wv, fg, gs, m3, rk⟩ := w
  cases m <;> cases s <;> cases fe <;> cases wv <;> cases fg <;> cases m3 <;>
    cases kw <;> cases rk <;>
      simp [midi_to_mp3, os_remove_wav]

/-- Witness for C8 at a concrete world in which every stage succeeds:
the conversion returns the output path. -/
theorem C8_conversion_errors_witness :
    midi_to_mp3 ('a' :: []) ('b' :: []) ('c' :: []) false
      ⟨true, true, true, [], true, true, [], true, true⟩ =
      Except.ok ('c' :: []) :=
  (C8_conversion_errors ('a' :: []) ('b' :: []) ('c' :: []) false
    ⟨true, true, true, [], true, true, [], true, true⟩).1.mpr
    ⟨rfl, rfl, rfl, rfl, rfl, rfl⟩

/-- C10: with `keep_wav = false` and every stage successful, a failing
`os.remove` of the intermediate WAV file is caught and suppressed: the
function still returns the output MP3 path. -/
theorem C10_wav_cleanup_suppressed (mp sf op : List Char) (w : World)
    (h1 : w.midiIsFile = true) (h2 : w.soundfontIsFile = true)
    (h3 : w.fluidsynthExitZero = true) (h4 : w.wavIsFileAfterSynth = true)
    (h5 : w.ffmpegExitZero = true) (h6 : w.mp3IsFileAfterEncode = true)
    (hfail : w.removeWavSucceeds = false) :
    midi_to_mp3 mp sf op false w = Except.ok op := by
  simp [midi_to_mp3, os_remove_wav, h1, h2, h3, h4, h5, h6, hfail]

/-- Witness for C10 at a concrete world where the WAV deletion raises
but everything else succeeds. -/
theorem C10_wav_cleanup_suppressed_witness :
    midi_to_mp3 ('a' :: []) ('b' :: []) ('c' :: []) false
      ⟨true, true, true, [], true, true, [], true, false⟩ =
      Except.ok ('c' :: []) :=
  C10_wav_cleanup_suppressed ('a' :: []) ('b' :: []) ('c' :: [])
    ⟨true, true, true, [], true, true, [], true, false⟩
    rfl rfl rfl rfl rfl rfl rfl

end ScoreGenie
